import Mathlib

/-!
Shallow embedding of `main.py` from the plane-cool repository, and proofs of
the specification claims about it.

Python floats are modelled as real numbers; the Python float modulo operator
with a positive modulus is modelled as floor-mod over the reals.  Exceptions
raised by the external flight-data gateway are modelled by `Option` and
`Except` values threaded through the pipeline.
-/

namespace PlaneCool

/-- `math.radians`. -/
noncomputable def radians (x : ℝ) : ℝ := x * Real.pi / 180

/-- `math.degrees`. -/
noncomputable def degrees (x : ℝ) : ℝ := x * 180 / Real.pi

/-- `math.atan2`, by the standard case analysis; `atan2 0 0 = 0` as in Python. -/
noncomputable def atan2 (y x : ℝ) : ℝ :=
  if 0 < x then Real.arctan (y / x)
  else if x < 0 then
    (if 0 ≤ y then Real.arctan (y / x) + Real.pi else Real.arctan (y / x) - Real.pi)
  else
    (if 0 < y then Real.pi / 2 else if y < 0 then -(Real.pi / 2) else 0)

/-- Python float `%` with the divisor `m`: floor-based modulo, the result has
the sign of the divisor. -/
noncomputable def pymod (x m : ℝ) : ℝ := x - m * (⌊x / m⌋ : ℤ)

/-- `distance` from `main.py`: Euclidean distance between two Cartesian points. -/
noncomputable def distance (x1 y1 z1 x2 y2 z2 : ℝ) : ℝ :=
  Real.sqrt ((x2 - x1) ^ 2 + (y2 - y1) ^ 2 + (z2 - z1) ^ 2)

/-- The local function `N` inside `pointToCartesian`: prime-vertical radius of
curvature of the WGS84 ellipsoid. -/
noncomputable def N (phi : ℝ) : ℝ :=
  6378137 / Real.sqrt (1 - 0.006694379990197619 * Real.sin phi ^ 2)

/-- `pointToCartesian` from `main.py`: geodetic (degrees, degrees, feet) to
Earth-centered Cartesian coordinates in meters. -/
noncomputable def pointToCartesian (longitude latitude altitude : ℝ) : ℝ × ℝ × ℝ :=
  let lon := radians longitude
  let lat := radians latitude
  let altitude_m := altitude * 0.3048
  ((N lat + altitude_m) * Real.cos lat * Real.cos lon,
   (N lat + altitude_m) * Real.cos lat * Real.sin lon,
   (0.9933056200098024 * N lat + altitude_m) * Real.sin lat)

/-- The WGS84 geodetic-to-ECEF conversion exactly as the specification words
it: with `lam` and `phi` the inputs in radians, `h = altitude_ft * 0.3048`,
and `Nspec phi = 6378137.0 / sqrt(1 - 0.006694379990197619 * sin(phi)^2)`. -/
noncomputable def specToCartesian (longitude latitude altitude : ℝ) : ℝ × ℝ × ℝ :=
  let lam := radians longitude
  let phi := radians latitude
  let h := altitude * 0.3048
  let Nphi := 6378137.0 / Real.sqrt (1 - 0.006694379990197619 * Real.sin phi ^ 2)
  ((Nphi + h) * Real.cos phi * Real.cos lam,
   (Nphi + h) * Real.cos phi * Real.sin lam,
   (0.9933056200098024 * Nphi + h) * Real.sin phi)

/-- `calculate_heading_to_aircraft` from `main.py`: initial great-circle
bearing from the user to the aircraft, normalized by `(deg + 360) % 360`. -/
noncomputable def calculate_heading_to_aircraft
    (user_lat user_lon aircraft_lat aircraft_lon : ℝ) : ℝ :=
  let user_lat_rad := radians user_lat
  let user_lon_rad := radians user_lon
  let aircraft_lat_rad := radians aircraft_lat
  let aircraft_lon_rad := radians aircraft_lon
  let dlon := aircraft_lon_rad - user_lon_rad
  let y := Real.sin dlon * Real.cos aircraft_lat_rad
  let x := Real.cos user_lat_rad * Real.sin aircraft_lat_rad -
    Real.sin user_lat_rad * Real.cos aircraft_lat_rad * Real.cos dlon
  let bearing_rad := atan2 y x
  let bearing_deg := degrees bearing_rad
  pymod (bearing_deg + 360) 360

/-- The bearing computation exactly as the specification words it, with the
normalization `((deg % 360) + 360) % 360`. -/
noncomputable def specBearingTo (fromLat fromLon toLat toLon : ℝ) : ℝ :=
  let dlon := radians toLon - radians fromLon
  let deg := degrees (atan2 (Real.sin dlon * Real.cos (radians toLat))
    (Real.cos (radians fromLat) * Real.sin (radians toLat) -
      Real.sin (radians fromLat) * Real.cos (radians toLat) * Real.cos dlon))
  pymod (pymod deg 360 + 360) 360

lemma pymod_eq_mul_fract (x m : ℝ) (hm : m ≠ 0) :
    pymod x m = m * Int.fract (x / m) := by
  unfold pymod
  rw [Int.fract]
  field_simp

lemma pymod_nonneg (x m : ℝ) (hm : 0 < m) : 0 ≤ pymod x m := by
  rw [pymod_eq_mul_fract x m hm.ne.symm]
  exact mul_nonneg hm.le (Int.fract_nonneg _)

lemma pymod_lt (x m : ℝ) (hm : 0 < m) : pymod x m < m := by
  rw [pymod_eq_mul_fract x m hm.ne.symm]
  calc m * Int.fract (x / m) < m * 1 :=
        mul_lt_mul_of_pos_left (Int.fract_lt_one _) hm
    _ = m := mul_one m

lemma pymod_add_self (x m : ℝ) (hm : m ≠ 0) : pymod (x + m) m = pymod x m := by
  unfold pymod
  have hdiv : (x + m) / m = x / m + 1 := by
    rw [add_div, div_self hm]
  rw [hdiv, Int.floor_add_one]
  push_cast
  ring

lemma pymod_eq_self (x m : ℝ) (h0 : 0 ≤ x) (h1 : x < m) : pymod x m = x := by
  have hm : 0 < m := lt_of_le_of_lt h0 h1
  unfold pymod
  have hfl : ⌊x / m⌋ = 0 := by
    rw [Int.floor_eq_zero_iff]
    exact ⟨div_nonneg h0 hm.le, (div_lt_one hm).mpr h1⟩
  simp [hfl]

lemma pymod_double_normalize (deg : ℝ) :
    pymod (pymod deg 360 + 360) 360 = pymod (deg + 360) 360 := by
  have h360 : (0 : ℝ) < 360 := by norm_num
  rw [pymod_add_self deg 360 h360.ne.symm, pymod_add_self (pymod deg 360) 360 h360.ne.symm]
  exact pymod_eq_self (pymod deg 360) 360 (pymod_nonneg deg 360 h360) (pymod_lt deg 360 h360)

/-- Claim C2: for every finite longitude (degrees), latitude (degrees) and
altitude (feet), `pointToCartesian` returns exactly the WGS84
geodetic-to-ECEF point given by the specification formula; it is a total
(pure) function of its real inputs. -/
theorem pointToCartesian_eq_wgs84_spec (longitude latitude altitude : ℝ) :
    pointToCartesian longitude latitude altitude =
      specToCartesian longitude latitude altitude := by
  unfold pointToCartesian specToCartesian N
  norm_num

/-- Claim C3: `calculate_heading_to_aircraft` computes exactly the
specification formula (atan2 of the great-circle bearing components,
converted to degrees and normalized by `((deg % 360) + 360) % 360`), and its
result always lies in the half-open interval `[0, 360)`. -/
theorem calculate_heading_matches_spec_and_range
    (user_lat user_lon aircraft_lat aircraft_lon : ℝ) :
    calculate_heading_to_aircraft user_lat user_lon aircraft_lat aircraft_lon =
      specBearingTo user_lat user_lon aircraft_lat aircraft_lon ∧
    0 ≤ calculate_heading_to_aircraft user_lat user_lon aircraft_lat aircraft_lon ∧
    calculate_heading_to_aircraft user_lat user_lon aircraft_lat aircraft_lon < 360 := by
  have h360 : (0 : ℝ) < 360 := by norm_num
  refine ⟨?_, ?_, ?_⟩
  · unfold calculate_heading_to_aircraft specBearingTo
    rw [pymod_double_normalize]
  · unfold calculate_heading_to_aircraft
    exact pymod_nonneg _ 360 h360
  · unfold calculate_heading_to_aircraft
    exact pymod_lt _ 360 h360

/-- The record built by `get_flight_data` on success (a Python dict with
fixed string keys; here a record with one field per key). -/
structure FlightData where
  source : String
  destination : String
  airline : String
  aircraft_type : String
  altitude : ℝ
  latitude : ℝ
  longitude : ℝ
  heading : ℝ

/-- A flight object as returned by the external FlightRadar24 gateway.
`details_ok` records whether the per-flight detail fetch
(`get_flight_details` / `set_flight_details`) succeeds or raises; each
`Option` field models a dynamic attribute that may be absent, as read by
`getattr` with a default.  `reprStr` is the string interpolation of the
flight object used in the error message. -/
structure RawFlight where
  reprStr : String
  details_ok : Bool
  origin_airport_name : Option String
  destination_airport_name : Option String
  airline_name : Option String
  aircraft_model : Option String
  altitude : Option ℝ
  latitude : Option ℝ
  longitude : Option ℝ
  heading : Option ℝ

/-- `get_flight_data` from `main.py`: the `try` block fetches details and
reads attributes with `getattr` defaults; an exception (modelled by
`details_ok = false`) yields `None`. -/
def get_flight_data (flight : RawFlight) : Option FlightData :=
  if flight.details_ok then
    some
      { source := flight.origin_airport_name.getD "Unknown"
        destination := flight.destination_airport_name.getD "Unknown"
        airline := flight.airline_name.getD "Unknown"
        aircraft_type := flight.aircraft_model.getD "Unknown"
        altitude := flight.altitude.getD 0
        latitude := flight.latitude.getD 0
        longitude := flight.longitude.getD 0
        heading := flight.heading.getD 0 }
  else none

/-- One element of the `aircraft_data` list in `get_flights_with_distances`:
a Python 3-tuple whose first component is a float (possibly `inf`, hence
`EReal`), second the flight dict or `None`, and third either the heading
float or the error-message string (Python is dynamically typed; the code
stores a float there on success and a string on failure). -/
abbrev Entry : Type := EReal × Option FlightData × (ℝ ⊕ String)

/-- The loop body of `get_flights_with_distances` for one flight: either the
error tuple `(inf, None, "Error processing flight ...")` or the tuple
`(dist, flight_data, heading_to_aircraft)`. -/
noncomputable def processFlight (latitude longitude altitude : ℝ)
    (flight : RawFlight) : Entry :=
  match get_flight_data flight with
  | none => ((⊤ : EReal), none, Sum.inr ("Error processing flight " ++ flight.reprStr))
  | some flight_data =>
      let u := pointToCartesian longitude latitude altitude
      let a := pointToCartesian flight_data.longitude flight_data.latitude
        flight_data.altitude
      let dist := distance u.1 u.2.1 u.2.2 a.1 a.2.1 a.2.2
      let heading_to_aircraft := calculate_heading_to_aircraft latitude longitude
        flight_data.latitude flight_data.longitude
      ((dist : EReal), some flight_data, Sum.inl heading_to_aircraft)

/-- `get_flights_with_distances` from `main.py`.  The gateway (bounds + list
query) is passed in as a function of the search radius returning either a
failure message (an exception) or the list of flights; a gateway failure is
re-raised wrapped as `Error fetching flight data: ...`. -/
noncomputable def get_flights_with_distances (latitude longitude altitude : ℝ)
    (radius_m : ℕ) (gw : ℕ → Except String (List RawFlight)) :
    Except String (List Entry) :=
  match gw radius_m with
  | .error e => .error ("Error fetching flight data: " ++ e)
  | .ok flights => .ok (flights.map (processFlight latitude longitude altitude))

/-- The sort key comparison used by `aircraft_data.sort(key=lambda x: x[0])`:
compare first components. -/
noncomputable def entryLE (a b : Entry) : Bool := decide (a.1 ≤ b.1)

/-- Python `list.sort` is a stable sort ascending by the key; modelled by the
stable `List.mergeSort`. -/
noncomputable def sortEntries (l : List Entry) : List Entry := l.mergeSort entryLE

/-- Display stand-in for Python `str(float)`: the exact decimal rendering of
a float is not modelled; no claim depends on the rendered numerals. -/
noncomputable def pyStr (x : ℝ) : String := toString (round x : ℤ)

/-- Display stand-in for the `:.2f` format specifier. -/
noncomputable def fmtF2 (x : ℝ) : String := toString (round (100 * x) : ℤ)

/-- Display stand-in for the `:.0f` format specifier. -/
noncomputable def fmtF0 (x : ℝ) : String := toString (round x : ℤ)

/-- The loop body formatting one entry in `get_aircraft`: when the flight
dict is `None` the third tuple component (the error message) is appended as
is; otherwise the `Aircraft: ... | ...` line is built. -/
noncomputable def renderEntry (e : Entry) : String :=
  match e.2.1 with
  | none =>
      (match e.2.2 with
       | Sum.inl h => pyStr h
       | Sum.inr s => s)
  | some flight_data =>
      let dist_km := e.1.toReal / 1000
      "Aircraft: " ++ flight_data.aircraft_type ++
        " | Airline: " ++ flight_data.airline ++
        " | From: " ++ flight_data.source ++
        " | To: " ++ flight_data.destination ++
        " | Altitude: " ++ pyStr flight_data.altitude ++
        "ft | Heading: " ++ pyStr flight_data.heading ++
        "° | Distance: " ++ fmtF2 dist_km ++
        "km | Heading to Aircraft From My Location: " ++
        (match e.2.2 with
         | Sum.inl h => fmtF0 h
         | Sum.inr s => s) ++ "°"

/-- The fixed instructional text block appended by `get_aircraft`. -/
def prompt : String :=
  "Here is information about the aircraft near to me. Based on the following question, tell me the airline, type (for example, truncate to 777-300 ER from 777-336(ER)), departing and arriving CITIES of the SINGLE aircraft which most matches. Tell me the airport's country only if it is NOT in Western Europe or North America. You don't need to give a justification for your answer. Don't include redundant information. Here is the prompt:\n"

/-- The query parameters of a request: each parameter is `none` when missing
from the query string, `some none` when present but not parseable as a
number by `float(...)`, and `some (some x)` when it parses to `x`. -/
structure QueryParams where
  longitude : Option (Option ℝ)
  latitude : Option (Option ℝ)
  altitude : Option (Option ℝ)

/-- `validate_location_params` from `main.py`: `float(request.args.get(...))`
raises `TypeError` when the parameter is missing and `ValueError` when it
does not parse; both are caught and re-raised as
`ValueError("Invalid longitude, latitude, or altitude values")`.  The
`altitude` parameter defaults to `0` when absent. -/
def validate_location_params (q : QueryParams) : Except String (ℝ × ℝ × ℝ) :=
  match q.longitude, q.latitude, q.altitude with
  | some (some longitude), some (some latitude), some (some altitude) =>
      .ok (longitude, latitude, altitude)
  | some (some longitude), some (some latitude), none =>
      .ok (longitude, latitude, 0)
  | _, _, _ => .error "Invalid longitude, latitude, or altitude values"

/-- An HTTP response: body text and status code.  (The `Content-Type`
header set on success responses is not modelled; no claim mentions it.) -/
structure HttpResponse where
  body : String
  status : ℕ

/-- The `/` route handler `get_aircraft` from `main.py`.  A `ValueError`
from validation maps to 400; any other exception (a wrapped gateway
failure) maps to 500. -/
noncomputable def get_aircraft (q : QueryParams)
    (gw : ℕ → Except String (List RawFlight)) : HttpResponse :=
  match validate_location_params q with
  | .error e => ⟨"Error: " ++ e, 400⟩
  | .ok (longitude, latitude, altitude) =>
    match get_flights_with_distances latitude longitude altitude 20000 gw with
    | .error e => ⟨"Error: " ++ e, 500⟩
    | .ok aircraft_data =>
        let sorted := sortEntries aircraft_data
        let output_strings := sorted.map renderEntry
        let combined_output := String.intercalate "\n" output_strings
        ⟨combined_output ++ prompt, 200⟩

/-- The sort key comparison for `valid_aircraft.sort(key=lambda x: x[0])`. -/
noncomputable def validLE (a b : EReal × FlightData) : Bool := decide (a.1 ≤ b.1)

/-- The `/closest` route handler `get_closest_aircraft` from `main.py`.
The source checks `if not valid_aircraft` before sorting and then takes
`valid_aircraft[0]`; since the sorted list is empty exactly when
`valid_aircraft` is, matching on the sorted list is equivalent. -/
noncomputable def get_closest_aircraft (q : QueryParams)
    (gw : ℕ → Except String (List RawFlight)) : HttpResponse :=
  match validate_location_params q with
  | .error e => ⟨"Error: " ++ e, 400⟩
  | .ok (longitude, latitude, altitude) =>
    match get_flights_with_distances latitude longitude altitude 10000 gw with
    | .error e => ⟨"Error: " ++ e, 500⟩
    | .ok aircraft_data =>
        let valid_aircraft := aircraft_data.filterMap
          (fun e => match e.2.1 with
            | some flight_data => some (e.1, flight_data)
            | none => none)
        match valid_aircraft.mergeSort validLE with
        | [] => ⟨"No aircraft found within 10km of your location.", 200⟩
        | (_, closest_flight) :: _ =>
            ⟨closest_flight.airline ++ " " ++ closest_flight.aircraft_type ++
              " departing from " ++ closest_flight.source ++ " to " ++
              closest_flight.destination ++ ".", 200⟩

lemma get_flight_data_none_iff (f : RawFlight) :
    get_flight_data f = none ↔ f.details_ok = false := by
  unfold get_flight_data
  cases h : f.details_ok <;> simp [h]

lemma processFlight_of_ok (latitude longitude altitude : ℝ) (f : RawFlight)
    (fd : FlightData) (h : get_flight_data f = some fd) :
    processFlight latitude longitude altitude f =
      (((distance (pointToCartesian longitude latitude altitude).1
          (pointToCartesian longitude latitude altitude).2.1
          (pointToCartesian longitude latitude altitude).2.2
          (pointToCartesian fd.longitude fd.latitude fd.altitude).1
          (pointToCartesian fd.longitude fd.latitude fd.altitude).2.1
          (pointToCartesian fd.longitude fd.latitude fd.altitude).2.2 : ℝ) : EReal),
       some fd,
       Sum.inl (calculate_heading_to_aircraft latitude longitude
         fd.latitude fd.longitude)) := by
  unfold processFlight
  rw [h]

lemma processFlight_of_err (latitude longitude altitude : ℝ) (f : RawFlight)
    (h : get_flight_data f = none) :
    processFlight latitude longitude altitude f =
      ((⊤ : EReal), none, Sum.inr ("Error processing flight " ++ f.reprStr)) := by
  unfold processFlight
  rw [h]

lemma processFlight_none_top (latitude longitude altitude : ℝ) (f : RawFlight) :
    ((processFlight latitude longitude altitude f).2.1 = none →
      (processFlight latitude longitude altitude f).1 = ⊤) ∧
    ((processFlight latitude longitude altitude f).2.1 ≠ none →
      (processFlight latitude longitude altitude f).1 < ⊤) := by
  cases h : get_flight_data f with
  | none => rw [processFlight_of_err latitude longitude altitude f h]; simp
  | some fd =>
      rw [processFlight_of_ok latitude longitude altitude f fd h]
      simp [EReal.coe_lt_top]

/-- Claim C9: for every aircraft whose detail fetch succeeds, the extracted
record never fails due to missing attributes: each absent textual attribute
defaults to the string "Unknown" and each absent numeric attribute defaults
to 0, so such an aircraft is ranked as a resolvable observation (its ranked
entry carries a flight dict, not an error). -/
theorem get_flight_data_defaults (f : RawFlight) (hok : f.details_ok = true) :
    get_flight_data f = some
      { source := f.origin_airport_name.getD "Unknown"
        destination := f.destination_airport_name.getD "Unknown"
        airline := f.airline_name.getD "Unknown"
        aircraft_type := f.aircraft_model.getD "Unknown"
        altitude := f.altitude.getD 0
        latitude := f.latitude.getD 0
        longitude := f.longitude.getD 0
        heading := f.heading.getD 0 } ∧
    ∀ latitude longitude altitude : ℝ,
      (processFlight latitude longitude altitude f).2.1 ≠ none := by
  have hdata : get_flight_data f = some
      { source := f.origin_airport_name.getD "Unknown"
        destination := f.destination_airport_name.getD "Unknown"
        airline := f.airline_name.getD "Unknown"
        aircraft_type := f.aircraft_model.getD "Unknown"
        altitude := f.altitude.getD 0
        latitude := f.latitude.getD 0
        longitude := f.longitude.getD 0
        heading := f.heading.getD 0 } := by
    unfold get_flight_data
    rw [hok]
    simp
  refine ⟨hdata, ?_⟩
  intro latitude longitude altitude
  rw [processFlight_of_ok latitude longitude altitude f _ hdata]
  simp

/-- A concrete flight whose detail fetch succeeds but all of whose dynamic
attributes are absent. -/
def bareFlight : RawFlight := ⟨"W1", true, none, none, none, none, none, none, none, none⟩

/-- Witness for the C9 theorem at a concrete flight with every attribute
absent. -/
theorem get_flight_data_defaults_witness :
    get_flight_data bareFlight =
      some ⟨"Unknown", "Unknown", "Unknown", "Unknown", 0, 0, 0, 0⟩ :=
  (get_flight_data_defaults bareFlight rfl).1

/-- A concrete flight whose detail fetch succeeds, with all attributes set. -/
def okFlight : RawFlight :=
  ⟨"F1", true, some "Origin City", some "Destination City", some "Acme Air",
    some "A320", some 1000, some 10, some 20, some 90⟩

/-- A concrete flight whose detail fetch raises. -/
def failFlight : RawFlight := ⟨"F0", false, none, none, none, none, none, none, none, none⟩

/-- Claim C4 counterexample: at a concrete user location and one resolvable
aircraft, the ranked tuple has the aircraft data as its second component and
the bearing as its third, so the components are not in the claimed order
(distance, bearing, aircraft-data). -/
theorem ranked_tuple_order_counterexample :
    (processFlight 0 0 0 okFlight).2.1 =
      some ⟨"Origin City", "Destination City", "Acme Air", "A320", 1000, 10, 20, 90⟩ ∧
    (processFlight 0 0 0 okFlight).2.2 =
      Sum.inl (calculate_heading_to_aircraft 0 0 10 20) := by
  have h : get_flight_data okFlight =
      some ⟨"Origin City", "Destination City", "Acme Air", "A320", 1000, 10, 20, 90⟩ := rfl
  rw [processFlight_of_ok 0 0 0 okFlight _ h]
  exact ⟨rfl, rfl⟩

/-- Claim C4 as amended: each successfully ranked entry is a tuple whose
components are, in order: distance, aircraft-data, bearing. -/
theorem ranked_tuple_components (latitude longitude altitude : ℝ)
    (f : RawFlight) (fd : FlightData) (h : get_flight_data f = some fd) :
    processFlight latitude longitude altitude f =
      (((distance (pointToCartesian longitude latitude altitude).1
          (pointToCartesian longitude latitude altitude).2.1
          (pointToCartesian longitude latitude altitude).2.2
          (pointToCartesian fd.longitude fd.latitude fd.altitude).1
          (pointToCartesian fd.longitude fd.latitude fd.altitude).2.1
          (pointToCartesian fd.longitude fd.latitude fd.altitude).2.2 : ℝ) : EReal),
       some fd,
       Sum.inl (calculate_heading_to_aircraft latitude longitude
         fd.latitude fd.longitude)) :=
  processFlight_of_ok latitude longitude altitude f fd h

/-- Witness for the amended C4 theorem at a concrete input. -/
theorem ranked_tuple_components_witness :
    processFlight 0 0 0 okFlight =
      (((distance (pointToCartesian 0 0 0).1 (pointToCartesian 0 0 0).2.1
          (pointToCartesian 0 0 0).2.2 (pointToCartesian 20 10 1000).1
          (pointToCartesian 20 10 1000).2.1 (pointToCartesian 20 10 1000).2.2 : ℝ) : EReal),
       some ⟨"Origin City", "Destination City", "Acme Air", "A320", 1000, 10, 20, 90⟩,
       Sum.inl (calculate_heading_to_aircraft 0 0 10 20)) :=
  ranked_tuple_components 0 0 0 okFlight
    ⟨"Origin City", "Destination City", "Acme Air", "A320", 1000, 10, 20, 90⟩ rfl

/-- Claim C5: every entry produced by the ranking pipeline satisfies the
data-model invariant: either the flight dict is populated and no error
message is present, or the dict is absent, an error message is present, and
the distance is plus infinity. -/
theorem ranked_entry_invariant (latitude longitude altitude : ℝ)
    (fs : List RawFlight) (e : Entry)
    (he : e ∈ fs.map (processFlight latitude longitude altitude)) :
    ((∃ fd, e.2.1 = some fd) ∧ ¬∃ s : String, e.2.2 = Sum.inr s) ∨
    (e.2.1 = none ∧ (∃ s : String, e.2.2 = Sum.inr s) ∧ e.1 = ⊤) := by
  obtain ⟨f, _, rfl⟩ := List.mem_map.mp he
  cases h : get_flight_data f with
  | none =>
      rw [processFlight_of_err latitude longitude altitude f h]
      exact Or.inr ⟨rfl, ⟨_, rfl⟩, rfl⟩
  | some fd =>
      rw [processFlight_of_ok latitude longitude altitude f fd h]
      exact Or.inl ⟨⟨fd, rfl⟩, by simp⟩

/-- Witness for the C5 theorem at a concrete entry of a concrete ranking. -/
theorem ranked_entry_invariant_witness :
    ((∃ fd, (processFlight 0 0 0 okFlight).2.1 = some fd) ∧
      ¬∃ s : String, (processFlight 0 0 0 okFlight).2.2 = Sum.inr s) ∨
    ((processFlight 0 0 0 okFlight).2.1 = none ∧
      (∃ s : String, (processFlight 0 0 0 okFlight).2.2 = Sum.inr s) ∧
      (processFlight 0 0 0 okFlight).1 = ⊤) :=
  ranked_entry_invariant 0 0 0 [okFlight] _ (by simp)

/-- Claim C6: a failing per-aircraft detail fetch is caught and converted
into a per-item error entry for that aircraft only; the output has one entry
per input aircraft, and every aircraft whose fetch succeeds is still ranked
with a populated flight dict. -/
theorem per_item_failure_isolated (latitude longitude altitude : ℝ)
    (fs : List RawFlight) :
    (fs.map (processFlight latitude longitude altitude)).length = fs.length ∧
    ∀ i : ℕ, ∀ hi : i < fs.length,
      ((fs.get ⟨i, hi⟩).details_ok = false →
        (fs.map (processFlight latitude longitude altitude)).get
            ⟨i, by simpa using hi⟩ =
          ((⊤ : EReal), none,
            Sum.inr ("Error processing flight " ++ (fs.get ⟨i, hi⟩).reprStr))) ∧
      ((fs.get ⟨i, hi⟩).details_ok = true →
        ((fs.map (processFlight latitude longitude altitude)).get
            ⟨i, by simpa using hi⟩).2.1 ≠ none) := by
  refine ⟨List.length_map fs _, ?_⟩
  intro i hi
  have hget : (fs.map (processFlight latitude longitude altitude)).get
      ⟨i, by simpa using hi⟩ = processFlight latitude longitude altitude (fs.get ⟨i, hi⟩) := by
    simp [List.get_eq_getElem, List.getElem_map]
  constructor
  · intro hfail
    rw [hget, processFlight_of_err latitude longitude altitude _
      ((get_flight_data_none_iff _).mpr hfail)]
  · intro hok
    rw [hget]
    exact (get_flight_data_defaults _ hok).2 latitude longitude altitude

/-- Witness for the C6 theorem on a concrete two-aircraft list with one
failing fetch. -/
theorem per_item_failure_isolated_witness :
    ([failFlight, okFlight].map (processFlight 0 0 0)).get ⟨0, by decide⟩ =
      ((⊤ : EReal), none, Sum.inr ("Error processing flight " ++ failFlight.reprStr)) ∧
    (([failFlight, okFlight].map (processFlight 0 0 0)).get ⟨1, by decide⟩).2.1 ≠ none :=
  ⟨((per_item_failure_isolated 0 0 0 [failFlight, okFlight]).2 0 (by decide)).1 rfl,
   ((per_item_failure_isolated 0 0 0 [failFlight, okFlight]).2 1 (by decide)).2 rfl⟩

/-- Claim C7: on both routes, a missing or unparseable `longitude` or
`latitude`, or an unparseable `altitude`, yields HTTP 400 with body exactly
`Error: Invalid longitude, latitude, or altitude values`; a missing
`altitude` is not an error and defaults to 0. -/
theorem invalid_params_http_400 (q : QueryParams)
    (gw : ℕ → Except String (List RawFlight))
    (hbad : q.longitude = none ∨ q.longitude = some none ∨
      q.latitude = none ∨ q.latitude = some none ∨ q.altitude = some none) :
    get_aircraft q gw =
      ⟨"Error: Invalid longitude, latitude, or altitude values", 400⟩ ∧
    get_closest_aircraft q gw =
      ⟨"Error: Invalid longitude, latitude, or altitude values", 400⟩ ∧
    ∀ lon lat : ℝ,
      validate_location_params ⟨some (some lon), some (some lat), none⟩ =
        .ok (lon, lat, 0) := by
  have hval : validate_location_params q =
      .error "Invalid longitude, latitude, or altitude values" := by
    rcases q with ⟨lon, lat, alt⟩
    rcases lon with _ | (_ | x) <;> rcases lat with _ | (_ | y) <;>
      rcases alt with _ | (_ | z) <;> simp_all [validate_location_params]
  refine ⟨?_, ?_, fun lon lat => rfl⟩
  · unfold get_aircraft
    rw [hval]
    rfl
  · unfold get_closest_aircraft
    rw [hval]
    rfl

/-- Witness for the C7 theorem: a request with a missing longitude. -/
theorem invalid_params_http_400_witness :
    get_aircraft ⟨none, some (some (0 : ℝ)), none⟩ (fun _ => .ok []) =
      ⟨"Error: Invalid longitude, latitude, or altitude values", 400⟩ :=
  (invalid_params_http_400 ⟨none, some (some (0 : ℝ)), none⟩ (fun _ => .ok [])
    (Or.inl rfl)).1

/-- Claim C8: on `/closest` with valid parameters, when the gateway list is
empty or every fetched aircraft's detail resolution failed, the response is
HTTP 200 with body exactly `No aircraft found within 10km of your location.`
(error entries are filtered out and never rendered). -/
theorem closest_no_resolvable_not_found (longitude latitude altitude : ℝ)
    (fs : List RawFlight) (gw : ℕ → Except String (List RawFlight))
    (hgw : gw 10000 = .ok fs)
    (hfail : ∀ f ∈ fs, f.details_ok = false) :
    get_closest_aircraft
        ⟨some (some longitude), some (some latitude), some (some altitude)⟩ gw =
      ⟨"No aircraft found within 10km of your location.", 200⟩ := by
  have hvalid : (fs.map (processFlight latitude longitude altitude)).filterMap
      (fun e : Entry => match e.2.1 with
        | some flight_data => some (e.1, flight_data)
        | none => none) = [] := by
    rw [List.filterMap_eq_nil_iff]
    intro e he
    obtain ⟨f, hf, rfl⟩ := List.mem_map.mp he
    rw [processFlight_of_err latitude longitude altitude f
      ((get_flight_data_none_iff f).mpr (hfail f hf))]
  unfold get_closest_aircraft get_flights_with_distances
  rw [hgw]
  simp only [show validate_location_params
      ⟨some (some longitude), some (some latitude), some (some altitude)⟩ =
      Except.ok (longitude, latitude, altitude) from rfl]
  simp only [hvalid, List.mergeSort_nil]

/-- Witness for the C8 theorem: one aircraft whose detail fetch fails. -/
theorem closest_no_resolvable_not_found_witness :
    get_closest_aircraft
        ⟨some (some (0 : ℝ)), some (some (0 : ℝ)), some (some (0 : ℝ))⟩
        (fun _ => .ok [failFlight]) =
      ⟨"No aircraft found within 10km of your location.", 200⟩ :=
  closest_no_resolvable_not_found 0 0 0 [failFlight] (fun _ => .ok [failFlight]) rfl
    (by intro f hf; rw [List.mem_singleton.mp hf]; rfl)

/-- Claim C10: on `/` with valid parameters, when the gateway returns an
empty aircraft list, the response is HTTP 200 whose body is the empty joined
aircraft listing followed by the fixed instructional text block; it is not
an error and not the `/closest` not-found message. -/
theorem root_empty_list_prompt_only (longitude latitude altitude : ℝ)
    (gw : ℕ → Except String (List RawFlight))
    (hgw : gw 20000 = .ok ([] : List RawFlight)) :
    get_aircraft
        ⟨some (some longitude), some (some latitude), some (some altitude)⟩ gw =
      ⟨"" ++ prompt, 200⟩ ∧
    prompt ≠ "No aircraft found within 10km of your location." := by
  constructor
  · unfold get_aircraft get_flights_with_distances
    rw [hgw]
    simp only [List.map_nil, sortEntries, List.mergeSort_nil]
    rfl
  · decide

/-- Witness for the C10 theorem at a concrete location. -/
theorem root_empty_list_prompt_only_witness :
    get_aircraft ⟨some (some (0 : ℝ)), some (some (0 : ℝ)), some (some (0 : ℝ))⟩
        (fun _ => .ok []) =
      ⟨"" ++ prompt, 200⟩ :=
  (root_empty_list_prompt_only 0 0 0 (fun _ => .ok []) rfl).1

lemma entryLE_iff (a b : Entry) : entryLE a b = true ↔ a.1 ≤ b.1 := by
  unfold entryLE
  exact ⟨fun h => of_decide_eq_true h, fun h => decide_eq_true h⟩

lemma entryLE_trans (a b c : Entry) (hab : entryLE a b) (hbc : entryLE b c) :
    entryLE a c :=
  (entryLE_iff a c).mpr (le_trans ((entryLE_iff a b).mp hab) ((entryLE_iff b c).mp hbc))

lemma entryLE_total (a b : Entry) : entryLE a b || entryLE b a := by
  rcases le_total a.1 b.1 with h | h
  · rw [(entryLE_iff a b).mpr h]
    exact Bool.true_or _
  · rw [(entryLE_iff b a).mpr h]
    exact Bool.or_true _

/-- Equality-of-distance test used to state sort stability. -/
noncomputable def distEq (d : EReal) (e : Entry) : Bool := decide (e.1 = d)

lemma distEq_iff (d : EReal) (e : Entry) : distEq d e = true ↔ e.1 = d := by
  unfold distEq
  exact ⟨fun h => of_decide_eq_true h, fun h => decide_eq_true h⟩

lemma sorted_ok_err_split (l : List Entry)
    (hs : l.Pairwise (fun a b : Entry => a.1 ≤ b.1))
    (h1 : ∀ e ∈ l, e.2.1 = none → e.1 = ⊤)
    (h2 : ∀ e ∈ l, e.2.1 ≠ none → e.1 < ⊤) :
    ∃ oks errs, l = oks ++ errs ∧ (∀ e ∈ oks, e.2.1 ≠ none) ∧
      ∀ e ∈ errs, e.2.1 = none ∧ e.1 = ⊤ := by
  induction l with
  | nil => exact ⟨[], [], rfl, by simp, by simp⟩
  | cons a rest ih =>
    rw [List.pairwise_cons] at hs
    by_cases hnone : a.2.1 = none
    · have ha : a.1 = ⊤ := h1 a (List.mem_cons_self a rest) hnone
      refine ⟨[], a :: rest, rfl, by simp, ?_⟩
      intro e he
      rcases List.mem_cons.mp he with rfl | he'
      · exact ⟨hnone, ha⟩
      · have hetop : e.1 = ⊤ := top_le_iff.mp (ha ▸ hs.1 e he')
        have henone : e.2.1 = none := by
          by_contra hc
          exact absurd hetop (ne_of_lt (h2 e (List.mem_cons_of_mem a he') hc))
        exact ⟨henone, hetop⟩
    · obtain ⟨oks, errs, heq, hoks, herrs⟩ := ih hs.2
        (fun e he => h1 e (List.mem_cons_of_mem a he))
        (fun e he => h2 e (List.mem_cons_of_mem a he))
      refine ⟨a :: oks, errs, by rw [heq, List.cons_append], ?_, herrs⟩
      intro e he
      rcases List.mem_cons.mp he with rfl | he'
      · exact hnone
      · exact hoks e he'

/-- Claim C1: for every user location and aircraft list, the ranked output is
sorted ascending by distance; the sort is stable (for each distance value,
the entries with that distance appear in the same order as before sorting);
and the output splits into the resolvable entries followed by the
unprocessable ones, each of which carries distance plus infinity. -/
theorem ranking_sorted_stable (latitude longitude altitude : ℝ)
    (fs : List RawFlight) :
    (sortEntries (fs.map (processFlight latitude longitude altitude))).Pairwise
      (fun a b : Entry => a.1 ≤ b.1) ∧
    (∀ d : EReal,
      (sortEntries (fs.map (processFlight latitude longitude altitude))).filter
          (distEq d) =
        (fs.map (processFlight latitude longitude altitude)).filter (distEq d)) ∧
    ∃ oks errs,
      sortEntries (fs.map (processFlight latitude longitude altitude)) =
        oks ++ errs ∧
      (∀ e ∈ oks, e.2.1 ≠ none) ∧ ∀ e ∈ errs, e.2.1 = none ∧ e.1 = ⊤ := by
  set entries := fs.map (processFlight latitude longitude altitude) with hentries
  have hsortedB : (entries.mergeSort entryLE).Pairwise (fun a b => entryLE a b) :=
    List.sorted_mergeSort entryLE_trans entryLE_total entries
  have hsorted : (sortEntries entries).Pairwise (fun a b : Entry => a.1 ≤ b.1) := by
    unfold sortEntries
    exact hsortedB.imp (fun h => (entryLE_iff _ _).mp h)
  have hmem : ∀ e ∈ entries, (e.2.1 = none → e.1 = ⊤) ∧ (e.2.1 ≠ none → e.1 < ⊤) := by
    intro e he
    obtain ⟨f, _, rfl⟩ := List.mem_map.mp he
    exact processFlight_none_top latitude longitude altitude f
  refine ⟨hsorted, ?_, ?_⟩
  · intro d
    have hpw : (entries.filter (distEq d)).Pairwise (fun a b => entryLE a b) := by
      apply List.pairwise_of_forall_mem_list
      intro a ha b hb
      have ha' : a.1 = d := (distEq_iff d a).mp (List.of_mem_filter ha)
      have hb' : b.1 = d := (distEq_iff d b).mp (List.of_mem_filter hb)
      exact (entryLE_iff a b).mpr (le_of_eq (ha'.trans hb'.symm))
    have hsub2 : List.Sublist (entries.filter (distEq d)) (entries.mergeSort entryLE) :=
      List.sublist_mergeSort entryLE_trans entryLE_total hpw (List.filter_sublist entries)
    have hid : (entries.filter (distEq d)).filter (distEq d) = entries.filter (distEq d) :=
      List.filter_eq_self.mpr (fun a ha => List.of_mem_filter ha)
    have hsub3 : List.Sublist (entries.filter (distEq d))
        ((entries.mergeSort entryLE).filter (distEq d)) := hid ▸ hsub2.filter (distEq d)
    have hlen : ((entries.mergeSort entryLE).filter (distEq d)).length =
        (entries.filter (distEq d)).length :=
      ((List.mergeSort_perm entries entryLE).filter (distEq d)).length_eq
    unfold sortEntries
    exact (hsub3.eq_of_length hlen.symm).symm
  · apply sorted_ok_err_split (sortEntries entries) hsorted
    · intro e he
      exact (hmem e ((List.mem_mergeSort).mp he)).1
    · intro e he
      exact (hmem e ((List.mem_mergeSort).mp he)).2

/-- Witness for the C1 theorem at a concrete location and aircraft list. -/
theorem ranking_sorted_stable_witness :
    (sortEntries ([failFlight, okFlight].map (processFlight 0 0 0))).Pairwise
      (fun a b : Entry => a.1 ≤ b.1) :=
  (ranking_sorted_stable 0 0 0 [failFlight, okFlight]).1

end PlaneCool
